import Mathlib

/-!
Shallow embedding of the radish feature-file parser core:
src/radish/parser.py (class FeatureParser) and
src/radish/scenariooutline.py (class ScenarioOutline).

Python strings are modelled as Lean String, Python lists as List,
Python None-able values as Option, raised exceptions as Except String.
Mutation of the parser object is modelled by explicit state passing.
Back-references (parent pointers) are dropped; ownership is modelled by
containment in the owning list.
-/

namespace Radish

/-- Keyword table, from class Keywords in parser.py (lines 16-26). -/
structure Keywords where
  feature : String
  scenario : String
  scenario_outline : String
  examples : String
  scenario_loop : String
  iterations : String
deriving Repr, DecidableEq

/-- A tag: name plus optional argument.  The argument is Option String
because the regex group for the parenthesized argument can be unmatched
(Python re group gives None). -/
structure Tag where
  name : String
  arg : Option String
deriving Repr, DecidableEq

/-- class ScenarioOutline.Example (scenariooutline.py lines 18-26). -/
structure Example where
  data : List String
  path : String
  line : Nat
deriving Repr, DecidableEq

/-- Modelled from the spec: class Step of radish.step is not under src/.
Spec section 3 gives its fields: identifier, sentence text, source
path/line, a runnable flag, an ordered 2-D table of string cells and an
ordered list of free-text lines.  The parent back-reference is dropped. -/
structure Step where
  id : Nat
  sentence : String
  path : String
  line : Nat
  runable : Bool
  table : List (List String)
  raw_text : List String
deriving Repr, DecidableEq

/-- Modelled from the spec: the Step constructor takes id, sentence,
path, line, parent and the runnable flag (parser.py line 278 passes them
positionally); table and text accumulate only later during parsing
(spec section 3, lifecycle), so a fresh Step has both empty. -/
def Step.make (id : Nat) (sentence : String) (path : String) (line : Nat)
    (runable : Bool) : Step :=
  { id := id, sentence := sentence, path := path, line := line,
    runable := runable, table := [], raw_text := [] }

/-- Modelled from the spec: class ExampleScenario of
radish.examplescenario is not under src/.  Spec section 3: a
materialized example scenario is a concrete scenario owned by a
Scenario Outline, referencing the originating Example.  Its constructor
is called in scenariooutline.py line 44 with id, keyword, sentence,
path, line, parent, example. -/
structure ExampleScenario where
  id : Nat
  keyword : String
  sentence : String
  path : String
  line : Nat
  ex : Example
  steps : List Step
deriving Repr, DecidableEq

/-- Variant payload of the scenario family: plain Scenario,
ScenarioOutline (example keyword, examples header, example rows and the
materialized scenarios built from them) or ScenarioLoop (iterations
keyword and iteration count). -/
inductive SKind where
  | plain : SKind
  | outline (example_keyword : String) (examples_header : List String)
      (examples : List Example) (built : List ExampleScenario) : SKind
  | loop (iterations_keyword : String) (iterations : Nat) : SKind
deriving Repr, DecidableEq

/-- Fields shared by the whole scenario family (spec section 3,
base shape; parser.py line 214 passes them to the constructor). -/
structure ScenMeta where
  id : Nat
  keyword : String
  sentence : String
  path : String
  line : Nat
  tags : List Tag
  context_variables : List (String × String)
deriving Repr, DecidableEq

/-- A scenario-family entity.  preconditions hold resolved scenarios of
other features (parser.py line 214, preconditions argument), which makes
the type recursive.  The parser passes tags and preconditions to every
variant constructor (parser.py line 214); the ScenarioOutline signature
in scenariooutline.py line 28 predates these parameters and the base
class that receives them is not under src/, so the shared fields follow
the spec (section 3, base shape). -/
inductive Scenario where
  | mk (meta : ScenMeta) (preconditions : List Scenario)
      (steps : List Step) (kind : SKind) : Scenario

def Scenario.meta : Scenario → ScenMeta
  | .mk m _ _ _ => m

def Scenario.preconditions : Scenario → List Scenario
  | .mk _ p _ _ => p

def Scenario.steps : Scenario → List Step
  | .mk _ _ s _ => s

def Scenario.kind : Scenario → SKind
  | .mk _ _ _ k => k

def Scenario.id (s : Scenario) : Nat := s.meta.id

def Scenario.keyword (s : Scenario) : String := s.meta.keyword

def Scenario.sentence (s : Scenario) : String := s.meta.sentence

def Scenario.path (s : Scenario) : String := s.meta.path

def Scenario.line (s : Scenario) : Nat := s.meta.line

/-- self.examples of a ScenarioOutline (empty for other variants, which
never reach the code that reads it). -/
def Scenario.examples (s : Scenario) : List Example :=
  match s.kind with
  | .outline _ _ exs _ => exs
  | _ => []

/-- self.examples_header of a ScenarioOutline. -/
def Scenario.examples_header (s : Scenario) : List String :=
  match s.kind with
  | .outline _ hdr _ _ => hdr
  | _ => []

def Scenario.setSteps : Scenario → List Step → Scenario
  | .mk m p _ k, s => .mk m p s k

def Scenario.setKind : Scenario → SKind → Scenario
  | .mk m p s _, k => .mk m p s k

/-- class Feature of radish.feature is not under src/; its fields are
modelled from the spec (section 3): identifier, keyword, sentence,
path, line, tags, description lines, scenarios, variable context. -/
structure Feature where
  id : Nat
  keyword : String
  sentence : String
  path : String
  line : Nat
  tags : List Tag
  description : List String
  scenarios : List Scenario
  context_variables : List (String × String)

/-- Modelled from the spec: Feature membership test used by
parser.py lines 203 and 336 is by scenario sentence
(spec: reject if a scenario with the same sentence already exists in
the Feature; the resolved Feature does not contain a scenario with the
requested sentence). -/
def Feature.containsScenario (f : Feature) (sentence : String) : Bool :=
  f.scenarios.any (fun s => s.sentence = sentence)

/-- Modelled from the spec: Feature item lookup used by parser.py
line 339 returns the scenario with the requested sentence. -/
def Feature.getScenario (f : Feature) (sentence : String) : Option Scenario :=
  f.scenarios.find? (fun s => s.sentence = sentence)

/-! ## Python string primitives

The Python string methods used by the source (startswith, endswith,
strip, replace, split, slicing) are modelled structurally over the
character list of the string, so that every definition evaluates by
kernel reduction. -/

/-- Python str.startswith. -/
def pyStartsWith (s p : String) : Bool :=
  p.toList.isPrefixOf s.toList

/-- Python str.endswith. -/
def pyEndsWith (s p : String) : Bool :=
  p.toList.isSuffixOf s.toList

/-- Python character slicing s[n:]. -/
def pyDrop (s : String) (n : Nat) : String :=
  String.mk (s.toList.drop n)

/-- Python character slicing s[:-n]. -/
def pyDropRight (s : String) (n : Nat) : String :=
  String.mk (s.toList.take (s.toList.length - n))

/-- Python str.strip() over the whitespace class of
Char.isWhitespace. -/
def pyStrip (s : String) : String :=
  String.mk (((s.toList.dropWhile Char.isWhitespace).reverse.dropWhile
    Char.isWhitespace).reverse)

/-- Python str.replace on character lists.  Each recursion step
consumes at least one character when the pattern is nonempty, so a fuel
equal to the input length is enough; matches are replaced left to right
without rescanning the replacement. -/
def pyReplaceFuel (pat rep : List Char) : Nat → List Char → List Char
  | 0, l => l
  | _ + 1, [] => []
  | fuel + 1, c :: cs =>
    if pat.isPrefixOf (c :: cs) then
      rep ++ pyReplaceFuel pat rep fuel ((c :: cs).drop pat.length)
    else c :: pyReplaceFuel pat rep fuel cs

/-- Python str.replace (the source only replaces the nonempty patterns
built around a column name in angle brackets). -/
def pyReplace (s pat rep : String) : String :=
  String.mk (pyReplaceFuel pat.toList rep.toList s.toList.length s.toList)

/-- Python str.split restricted to a one-character separator, on the
character list of the string. -/
def pySplit (sep : Char) : List Char → List (List Char)
  | [] => [[]]
  | c :: cs =>
    if c = sep then [] :: pySplit sep cs
    else
      match pySplit sep cs with
      | [] => [[c]]
      | p :: ps => (c :: p) :: ps

/-! ## Scenario Outline expansion (scenariooutline.py) -/

/-- One insertion into a Python dict: an existing key keeps its position
and gets the new value, a new key is appended. -/
def dictInsert (d : List (String × String)) (k v : String) :
    List (String × String) :=
  if d.any (fun kv => kv.1 = k) then
    d.map (fun kv => if kv.1 = k then (k, v) else kv)
  else d ++ [(k, v)]

/-- Python dict(pairs): later duplicate keys overwrite earlier values,
iteration order is first-insertion order. -/
def pyDict (l : List (String × String)) : List (String × String) :=
  l.foldl (fun d kv => dictInsert d kv.1 kv.2) []

/-- ScenarioOutline._replace_examples_in_sentence
(scenariooutline.py lines 51-64): repeatedly str.replace the pattern
<key> by the value, iterating over the dict items in order. -/
def replace_examples_in_sentence (sentence : String)
    (examples : List (String × String)) : String :=
  examples.foldl
    (fun s kv => pyReplace s ("<" ++ kv.1 ++ ">") kv.2) sentence

/-- ScenarioOutline.build_scenarios (scenariooutline.py lines 35-49):
for each example row (enumerated) build an ExampleScenario whose id is
the outline id plus the row index, whose sentence appends " - row i",
and whose steps substitute the example values into the template step
sentences.  The source appends to self.scenarios; the built list is
returned here. -/
def build_scenarios (outline : Scenario) : List ExampleScenario :=
  outline.examples.enum.map (fun rowEx =>
    let row_id := rowEx.1
    let ex := rowEx.2
    let examples := pyDict (outline.examples_header.zip ex.data)
    let scenario_id := outline.id + row_id
    let steps := outline.steps.enum.map (fun stepT =>
      Step.make (stepT.1 + 1)
        (replace_examples_in_sentence stepT.2.sentence examples)
        stepT.2.path ex.line false)
    { id := scenario_id, keyword := outline.keyword,
      sentence := outline.sentence ++ " - row " ++ toString row_id,
      path := outline.path, line := outline.line, ex := ex,
      steps := steps })

/-- Modelled from the spec: Scenario.after_parse is not under src/.
The spec (section 3, lifecycle) says that when the next scenario
boundary or end of file is reached, an Outline populates its
materialized-instance list in a single expansion step.  Loop expansion
is analogous (spec section 4.3) but no claim depends on its
materialized list, so it is left untouched here. -/
def Scenario.after_parse (s : Scenario) : Scenario :=
  match s.kind with
  | .outline ek hdr exs _ => s.setKind (.outline ek hdr exs (build_scenarios s))
  | _ => s

/-! ## Construct detectors (parser.py lines 354-475) -/

/-- Python truthiness of the Optional[str] detector results: None and
the empty string are falsy. -/
def truthy : Option String → Bool
  | none => false
  | some s => s ≠ ""

/-- The fixed keyword delimiter self._keywords_delimiter (parser.py
line 60). -/
def keywords_delimiter : String := ":"

/-- FeatureParser._detect_feature (parser.py lines 354-366): if the line
starts with the feature keyword followed by the delimiter, return the
remainder stripped. -/
def detect_feature (kw : Keywords) (line : String) : Option String :=
  if pyStartsWith line (kw.feature ++ keywords_delimiter) then
    some (pyStrip
      (pyDrop line (kw.feature.length + keywords_delimiter.length)))
  else none

/-- FeatureParser._detect_scenario (parser.py lines 368-380). -/
def detect_scenario (kw : Keywords) (line : String) : Option String :=
  if pyStartsWith line (kw.scenario ++ keywords_delimiter) then
    some (pyStrip
      (pyDrop line (kw.scenario.length + keywords_delimiter.length)))
  else none

/-- FeatureParser._detect_scenario_outline (parser.py lines 382-394). -/
def detect_scenario_outline (kw : Keywords) (line : String) : Option String :=
  if pyStartsWith line (kw.scenario_outline ++ keywords_delimiter) then
    some (pyStrip (pyDrop line
      (kw.scenario_outline.length + keywords_delimiter.length)))
  else none

/-- FeatureParser._detect_examples (parser.py lines 396-408). -/
def detect_examples (kw : Keywords) (line : String) : Bool :=
  pyStartsWith line (kw.examples ++ keywords_delimiter)

/-- Decimal value of a digit run, as Python int() of the matched
digit group. -/
def digitsToNat (ds : List Char) : Nat :=
  ds.foldl (fun n c => n * 10 + (c.toNat - 48)) 0

/-- FeatureParser._detect_scenario_loop (parser.py lines 410-423):
the anchored regex match of keyword, space, digit group, colon, rest;
returns (rest stripped, iteration count).  The digit class is modelled
as ASCII digits. -/
def detect_scenario_loop (kw : Keywords) (line : String) :
    Option (String × Nat) :=
  if pyStartsWith line (kw.scenario_loop ++ " ") then
    let rest := (pyDrop line (kw.scenario_loop.length + 1)).toList
    let digits := rest.takeWhile Char.isDigit
    match digits, rest.dropWhile Char.isDigit with
    | [], _ => none
    | _ :: _, ':' :: tail => some (pyStrip (String.mk tail),
        digitsToNat digits)
    | _ :: _, _ => none
  else none

/-- FeatureParser._detect_table (parser.py lines 425-434). -/
def detect_table (line : String) : Bool :=
  pyStartsWith line "|"

/-- FeatureParser._detect_step_text (parser.py lines 436-445). -/
def detect_step_text (line : String) : Bool :=
  pyStartsWith line "\"\"\""

/-- The character class of the tag-name regex group: neither whitespace
nor an opening parenthesis. -/
def tagNameChar (c : Char) : Bool :=
  !c.isWhitespace && c != '('

/-- FeatureParser._detect_tag (parser.py lines 462-475): the anchored
regex matches an at sign, a maximal nonempty run of tagNameChar
characters (the name), and an optional parenthesized argument whose
lazy body runs to the first closing parenthesis.  When the optional
group does not match, the argument is absent (Python regex group
None). -/
def detect_tag (line : String) : Option (String × Option String) :=
  match line.toList with
  | '@' :: rest =>
    let name := rest.takeWhile tagNameChar
    if name.isEmpty then none
    else
      match rest.dropWhile tagNameChar with
      | '(' :: tail =>
        if tail.contains ')' then
          some (String.mk name, some (String.mk (tail.takeWhile (· != ')'))))
        else some (String.mk name, none)
      | _ => some (String.mk name, none)
  | _ => none

/-- The cell list of a pipe row: Python
[x.strip() for x in line.split(quote-bar)[1:-1]]
(parser.py lines 234, 249, 291). -/
def pySplitInterior (line : String) : List String :=
  (((pySplit '|' line.toList).drop 1).dropLast).map
    (fun cs => pyStrip (String.mk cs))

/-! ## Parser state machine (parser.py lines 29-352) -/

/-- The parser states that the machine actually enters
(FeatureParser.State, parser.py lines 38-50; INIT, SCENARIO_OUTLINE and
SCENARIO_LOOP are declared in the source but never assigned to
self._current_state). -/
inductive PState where
  | feature | scenario | step | examples | examples_row | step_text
deriving Repr, DecidableEq

/-- The mutable fields of a FeatureParser instance
(parser.py lines 52-70).  The keyword table is the one loaded at
construction. -/
structure ParserState where
  keywords : Keywords
  featurefile : String
  featureid : Nat
  current_state : PState
  current_line : Nat
  current_tags : List Tag
  current_preconditions : List Scenario
  current_variables : List (String × String)
  in_step_text : Bool
  feature : Option Feature

/-- The initial parser state (parser.py lines 62-68): the machine
starts in FEATURE state with line counter 0 and empty buffers. -/
def initState (kw : Keywords) (featurefile : String) (featureid : Nat) :
    ParserState :=
  { keywords := kw, featurefile := featurefile, featureid := featureid,
    current_state := .feature, current_line := 0, current_tags := [],
    current_preconditions := [], current_variables := [],
    in_step_text := false, feature := none }

/-- Mutation of self.feature.scenarios[-1] (no-op on an empty list is
never reached by the driver). -/
def Feature.modifyLastScenario (f : Feature) (g : Scenario → Scenario) :
    Feature :=
  match f.scenarios.getLast? with
  | none => f
  | some last => { f with scenarios := f.scenarios.dropLast ++ [g last] }

/-- Mutation of scenario.steps[-1]. -/
def Scenario.modifyLastStep (s : Scenario) (g : Step → Step) : Scenario :=
  match s.steps.getLast? with
  | none => s
  | some last => s.setSteps (s.steps.dropLast ++ [g last])

/-- Modelled from the spec: Scenario.all_steps (class not under src/) is
read by parser.py line 276 to number a new step; the spec (section 3)
says step identifiers are 1-based within the owning scenario, so
all_steps is modelled as the own step list. -/
def Scenario.all_steps (s : Scenario) : List Step := s.steps

/-- FeatureParser._parse_variable (parser.py lines 341-352): split the
argument at the first colon; Python unpacking of a colon-free argument
raises. -/
def parse_variable (arguments : String) : Except String (String × String) :=
  match pySplit ':' arguments.toList with
  | [] => .error "ValueError: not enough values to unpack"
  | [_] => .error "ValueError: not enough values to unpack"
  | n :: rest => .ok (pyStrip (String.mk n),
      pyStrip (String.mk (List.intercalate [':'] rest)))

/-- os.path.dirname for POSIX-style paths (standard library call in
parser.py line 327). -/
def posixDirname (p : String) : String :=
  String.mk (List.intercalate ['/'] ((pySplit '/' p.toList).dropLast))

/-- os.path.join for the simple relative case used by
parser.py line 327. -/
def posixJoin (a b : String) : String :=
  if a = "" then b else a ++ "/" ++ b

/-- The regex search of (.*?\.feature): (.*) in the precondition tag
argument (parser.py line 322): a match exists exactly when the argument
splits at some point k into a prefix ending in .feature followed by a
colon and a space; the lazy first group picks the least such k. -/
def findPrecondSplit (arg : String) : Option (String × String) :=
  let l := arg.toList
  ((List.range (l.length + 1)).find? (fun k =>
    ".feature".toList.isSuffixOf (l.take k)
      ∧ [':', ' '].isPrefixOf (l.drop k))).map
    (fun k => (String.mk (l.take k), String.mk (l.drop (k + 2))))

/-- FeatureParser._parse_precondition (parser.py lines 313-339).  The
argument is None when the tag had no parenthesized part, on which the
regex search raises.  The recursive self._core.parse_feature call is the
externally injected collaborator, modelled by env from joined path to
parse result; its recursion-limit (cycle) translation is part of that
collaborator call and not modelled further.  The source checks
membership and then indexes the feature; both are by sentence, so the
single lookup below is the same computation. -/
def parse_precondition (env : String → Except String Feature)
    (st : ParserState) (arguments : Option String) :
    Except String Scenario :=
  match arguments with
  | none => .error "TypeError: expected string or bytes-like object"
  | some args =>
    match findPrecondSplit args with
    | none => .error
        "Scenario @precondition tag must have argument in format: test.feature: Some scenario"
    | some (feature_file_name, scenario_sentence) =>
      let feature_file := posixJoin (posixDirname st.featurefile)
        feature_file_name
      match env feature_file with
      | .error e => .error e
      | .ok feature =>
        match feature.getScenario scenario_sentence with
        | none => .error ("Cannot import precondition scenario " ++
            scenario_sentence ++ " from feature " ++ feature_file ++
            ": No such scenario")
        | some sc => .ok sc

/-- The common tail of FeatureParser._parse_scenario
(parser.py lines 203-223): duplicate-sentence check, identifier
computation with the carry from an immediately preceding Outline or
Loop, construction of the new scenario consuming the buffered tags,
preconditions and variables, transition to STEP. -/
def appendScenario (st : ParserState) (feat : Feature) (sentence : String)
    (keyword : String) (kind : SKind) : Except String ParserState :=
  if feat.containsScenario sentence then
    .error ("Scenario with name " ++ sentence ++
      " defined twice in feature " ++ feat.sentence)
  else
    let scenario_id :=
      match feat.scenarios.getLast? with
      | some prev =>
        match prev.kind with
        | .outline _ _ exs _ => feat.scenarios.length + 1 + exs.length
        | .loop _ n => feat.scenarios.length + 1 + n
        | .plain => feat.scenarios.length + 1
      | none => feat.scenarios.length + 1
    let sc : Scenario := .mk
      { id := scenario_id, keyword := keyword, sentence := sentence,
        path := st.featurefile, line := st.current_line,
        tags := st.current_tags,
        context_variables := st.current_variables }
      st.current_preconditions [] kind
    .ok { st with
      feature := some { feat with scenarios := feat.scenarios ++ [sc] },
      current_tags := [], current_preconditions := [],
      current_variables := [], current_state := .step }

/-- FeatureParser._parse_scenario (parser.py lines 168-223): try the
scenario, scenario-outline and scenario-loop detectors in this order
under Python truthiness, then the tag detector (with precondition and
variable handling), and otherwise append the line to the feature
description. -/
def parse_scenario (env : String → Except String Feature)
    (st : ParserState) (line : String) : Except String ParserState :=
  match st.feature with
  | none => .error "AttributeError: feature is None"
  | some feat =>
    let d1 := detect_scenario st.keywords line
    if truthy d1 then
      appendScenario st feat (d1.getD "") st.keywords.scenario .plain
    else
      let d2 := detect_scenario_outline st.keywords line
      if truthy d2 then
        appendScenario st feat (d2.getD "") st.keywords.scenario_outline
          (.outline st.keywords.examples [] [] [])
      else
        match detect_scenario_loop st.keywords line with
        | some (sent, iterations) =>
          appendScenario st feat sent st.keywords.scenario_loop
            (.loop st.keywords.iterations iterations)
        | none =>
          match detect_tag line with
          | some (tname, targ) =>
            let st1 := { st with
              current_tags := st.current_tags ++ [⟨tname, targ⟩] }
            if tname = "precondition" then
              match parse_precondition env st1 targ with
              | .error e => .error e
              | .ok sc => .ok { st1 with current_preconditions :=
                  st1.current_preconditions ++ [sc] }
            else if tname = "variable" then
              match targ with
              | none => .error "AttributeError: NoneType has no split"
              | some a =>
                match parse_variable a with
                | .error e => .error e
                | .ok nv => .ok { st1 with current_variables :=
                    st1.current_variables ++ [nv] }
            else .ok st1
          | none =>
            .ok { st with feature := some { feat with
              description := feat.description ++ [line] } }

/-- FeatureParser._parse_examples (parser.py lines 225-236): only an
Outline accepts an Examples header; store the stripped interior cells
as the header and move to EXAMPLES_ROW. -/
def parse_examples (st : ParserState) (line : String) :
    Except String ParserState :=
  match st.feature with
  | none => .error "AttributeError: feature is None"
  | some feat =>
    match feat.scenarios.getLast? with
    | none => .error "IndexError: list index out of range"
    | some last =>
      match last.kind with
      | .outline ek _ exs bs =>
        .ok { st with
          feature := some (feat.modifyLastScenario (fun s =>
            s.setKind (.outline ek (pySplitInterior line) exs bs))),
          current_state := .examples_row }
      | _ => .error
          "Scenario does not support Examples. Use Scenario Outline"

/-- FeatureParser._parse_examples_row (parser.py lines 238-251): a line
on which the scenario, scenario-outline or scenario-loop detector is
truthy finalizes the outline and re-dispatches through the SCENARIO
handler; every other line is appended as a new Example row. -/
def parse_examples_row (env : String → Except String Feature)
    (st : ParserState) (line : String) : Except String ParserState :=
  if truthy (detect_scenario st.keywords line)
      || truthy (detect_scenario_outline st.keywords line)
      || (detect_scenario_loop st.keywords line).isSome then
    match st.feature with
    | none => .error "AttributeError: feature is None"
    | some feat =>
      match feat.scenarios.getLast? with
      | none => .error "IndexError: list index out of range"
      | some _ =>
        parse_scenario env { st with
          feature := some (feat.modifyLastScenario Scenario.after_parse) }
          line
  else
    match st.feature with
    | none => .error "AttributeError: feature is None"
    | some feat =>
      match feat.scenarios.getLast? with
      | none => .error "IndexError: list index out of range"
      | some last =>
        match last.kind with
        | .outline ek hdr exs bs =>
          .ok { st with feature := some (feat.modifyLastScenario (fun s =>
            s.setKind (.outline ek hdr
              (exs ++ [{ data := pySplitInterior line,
                         path := st.featurefile,
                         line := st.current_line }]) bs))) }
        | _ => .error "AttributeError: scenario has no examples"

/-- FeatureParser._parse_table (parser.py lines 282-292): a table row
with no step in the current scenario is a structural error; otherwise
the stripped interior cells are appended to the table of the last
step. -/
def parse_table (st : ParserState) (line : String) :
    Except String ParserState :=
  match st.feature with
  | none => .error "AttributeError: feature is None"
  | some feat =>
    match feat.scenarios.getLast? with
    | none => .error "IndexError: list index out of range"
    | some last =>
      if last.steps.isEmpty then
        .error ("Found step table without previous step definition on line "
          ++ toString st.current_line)
      else
        .ok { st with feature := some (feat.modifyLastScenario (fun s =>
          s.modifyLastStep (fun stp =>
            { stp with table := stp.table ++ [pySplitInterior line] }))) }

/-- FeatureParser._parse_step_text (parser.py lines 294-311): strip an
opening delimiter (entering the block), then a closing delimiter
(leaving to STEP), and append what remains, trimmed, to the raw text of
the last step. -/
def parse_step_text (st : ParserState) (line : String) :
    Except String ParserState :=
  let s1 := if pyStartsWith line "\"\"\"" && !st.in_step_text then
      ({ st with in_step_text := true }, pyDrop line 3)
    else (st, line)
  let s2 := if pyEndsWith s1.2 "\"\"\"" && s1.1.in_step_text then
      ({ s1.1 with current_state := .step, in_step_text := false },
        pyDropRight s1.2 3)
    else s1
  if s2.2 = "" then .ok s2.1
  else
    match s2.1.feature with
    | none => .error "AttributeError: feature is None"
    | some feat =>
      match feat.scenarios.getLast? with
      | none => .error "IndexError: list index out of range"
      | some last =>
        if last.steps.isEmpty then
          .error "IndexError: list index out of range"
        else
          .ok { s2.1 with feature := some (feat.modifyLastScenario (fun s =>
            s.modifyLastStep (fun stp =>
              { stp with raw_text := stp.raw_text ++ [pyStrip s2.2] }))) }

/-- FeatureParser._parse_step (parser.py lines 253-280): a truthy
scenario-family detection or a tag finalizes the current scenario and
re-dispatches through SCENARIO; then step text, table row and Examples
marker are tried; any other line becomes a new Step, runnable unless the
owning scenario is an Outline or Loop. -/
def parse_step (env : String → Except String Feature)
    (st : ParserState) (line : String) : Except String ParserState :=
  if truthy (detect_scenario st.keywords line)
      || truthy (detect_scenario_outline st.keywords line)
      || (detect_scenario_loop st.keywords line).isSome
      || (detect_tag line).isSome then
    match st.feature with
    | none => .error "AttributeError: feature is None"
    | some feat =>
      match feat.scenarios.getLast? with
      | none => .error "IndexError: list index out of range"
      | some _ =>
        parse_scenario env { st with
          feature := some (feat.modifyLastScenario Scenario.after_parse) }
          line
  else if detect_step_text line then
    parse_step_text { st with current_state := .step_text } line
  else if detect_table line then
    parse_table st line
  else if detect_examples st.keywords line then
    .ok { st with current_state := .examples }
  else
    match st.feature with
    | none => .error "AttributeError: feature is None"
    | some feat =>
      match feat.scenarios.getLast? with
      | none => .error "IndexError: list index out of range"
      | some last =>
        let step_id := last.all_steps.length + 1
        let not_runable :=
          match last.kind with
          | .plain => false
          | _ => true
        .ok { st with feature := some (feat.modifyLastScenario (fun s =>
          s.setSteps (s.steps ++ [Step.make step_id line st.featurefile
            st.current_line (!not_runable)]))) }

/-- FeatureParser._parse_feature (parser.py lines 141-166): on a truthy
feature detection construct the Feature consuming the buffered tags and
variables and move to SCENARIO; otherwise buffer a tag (with variable
handling); otherwise report a negative result (the false component),
which the driver turns into a syntax error. -/
def parse_feature (st : ParserState) (line : String) :
    Except String (Bool × ParserState) :=
  let d := detect_feature st.keywords line
  if truthy d then
    let feat : Feature :=
      { id := st.featureid, keyword := st.keywords.feature,
        sentence := d.getD "", path := st.featurefile,
        line := st.current_line, tags := st.current_tags,
        description := [], scenarios := [],
        context_variables := st.current_variables }
    let st2 := { st with
      feature := some feat, current_state := .scenario,
      current_tags := [], current_variables := [] }
    .ok (true, st2)
  else
    match detect_tag line with
    | some (tname, targ) =>
      let st1 := { st with
        current_tags := st.current_tags ++ [⟨tname, targ⟩] }
      if tname = "variable" then
        match targ with
        | none => .error "AttributeError: NoneType has no split"
        | some a =>
          match parse_variable a with
          | .error e => .error e
          | .ok nv => .ok (true, { st1 with
              current_variables := st1.current_variables ++ [nv] })
      else .ok (true, st1)
    | none => .ok (false, st)

/-- FeatureParser._parse_context (parser.py lines 129-139): dispatch on
the current state.  Only the FEATURE handler can report a negative
result (line 159); all other handlers return truthily or raise. -/
def parse_context (env : String → Except String Feature)
    (st : ParserState) (line : String) :
    Except String (Bool × ParserState) :=
  match st.current_state with
  | .feature => parse_feature st line
  | .scenario => (parse_scenario env st line).map (fun s => (true, s))
  | .step => (parse_step env st line).map (fun s => (true, s))
  | .examples => (parse_examples st line).map (fun s => (true, s))
  | .examples_row => (parse_examples_row env st line).map (fun s => (true, s))
  | .step_text => (parse_step_text st line).map (fun s => (true, s))

/-- One iteration of the reading loop in FeatureParser.parse
(parser.py lines 104-122): count the line, strip it, skip blank and
comment lines, reject a second feature header, dispatch, and turn a
negative dispatch into a syntax error.  A comment line carrying a
language pragma reloads the keyword table from the language files on
disk; no claim involves a mid-document language switch, so pragma lines
are treated here like other comments. -/
def parse_line (env : String → Except String Feature)
    (st : ParserState) (rawline : String) : Except String ParserState :=
  let st := { st with current_line := st.current_line + 1 }
  let line := pyStrip rawline
  if line = "" then .ok st
  else if pyStartsWith line "#" then .ok st
  else if st.feature.isSome && truthy (detect_feature st.keywords line) then
    .error "radish supports only one Feature per feature file"
  else
    match parse_context env st line with
    | .ok (true, st2) => .ok st2
    | .ok (false, _) => .error ("Syntax error in feature file " ++
        st.featurefile ++ " on line " ++ toString st.current_line)
    | .error e => .error e

/-- FeatureParser.parse (parser.py lines 96-127): run the loop over all
lines, require a Feature, and finalize the last scenario. -/
def parse (env : String → Except String Feature) (kw : Keywords)
    (featurefile : String) (featureid : Nat) (lines : List String) :
    Except String Feature := do
  let stF ← lines.foldlM (fun s l => parse_line env s l)
    (initState kw featurefile featureid)
  match stF.feature with
  | none => .error ("No Feature found in file " ++ featurefile)
  | some feat =>
    if feat.scenarios.isEmpty then .ok feat
    else .ok (feat.modifyLastScenario Scenario.after_parse)

/-! ## Derived detector chain -/

/-- The scenario-family sentence that FeatureParser._parse_scenario
extracts on lines 174-201: the plain-scenario detection when truthy,
else the outline detection when truthy, else the sentence component of
the loop detection. -/
def detected_family_sentence (kw : Keywords) (line : String) :
    Option String :=
  let d1 := detect_scenario kw line
  if truthy d1 then d1
  else
    let d2 := detect_scenario_outline kw line
    if truthy d2 then d2
    else (detect_scenario_loop kw line).map Prod.fst

/-! ## Concrete fixtures used by witnesses and counterexamples -/

/-- The standard English keyword table (radish languages/en.json). -/
def kwEN : Keywords :=
  { feature := "Feature", scenario := "Scenario",
    scenario_outline := "Scenario Outline", examples := "Examples",
    scenario_loop := "Scenario Loop", iterations := "Iterations" }

/-- A collaborator environment with no parseable feature files. -/
def envE : String → Except String Feature := fun _ => .error "no file"

/-- An empty parsed feature. -/
def featF : Feature :=
  { id := 1, keyword := "Feature", sentence := "F", path := "t.feature",
    line := 1, tags := [], description := [], scenarios := [],
    context_variables := [] }

/-- A feature file declaring a two-row Scenario Outline immediately
followed by a plain Scenario. -/
def linesC1 : List String :=
  ["Feature: F", "Scenario Outline: O", "Given x", "Examples:",
   "| a |", "| 1 |", "| 2 |", "Scenario: S", "Given y"]

/-- A template step carrying a data table and a long-text block. -/
def stepT : Step :=
  { id := 1, sentence := "Given <a>", path := "t.feature", line := 3,
    runable := false, table := [["x"]], raw_text := ["t"] }

/-- A one-row Scenario Outline whose template step carries a table and
a text block. -/
def outlineC4 : Scenario :=
  .mk { id := 1, keyword := "Scenario Outline", sentence := "O",
        path := "t.feature", line := 2, tags := [],
        context_variables := [] }
    [] [stepT]
    (.outline "Examples" ["a"]
      [{ data := ["1"], path := "t.feature", line := 5 }] [])

/-- The example rows of the round-trip outline of spec section 8. -/
def exsRT : List Example :=
  [{ data := ["1", "2"], path := "t.feature", line := 6 },
   { data := ["3", "4"], path := "t.feature", line := 7 }]

/-- The round-trip Scenario Outline of spec section 8: header a, b and
rows 1, 2 and 3, 4. -/
def outlineRT : Scenario :=
  .mk { id := 1, keyword := "Scenario Outline", sentence := "Add",
        path := "t.feature", line := 2, tags := [],
        context_variables := [] }
    [] [Step.make 1 "Given I have <a>" "t.feature" 3 false,
        Step.make 2 "When I add <b>" "t.feature" 4 false]
    (.outline "Examples" ["a", "b"] exsRT [])

/-- The first materialized step of outlineC4. -/
def stpC4built : Step :=
  { id := 1, sentence := "Given 1", path := "t.feature", line := 5,
    runable := false, table := [], raw_text := [] }

/-- The materialized scenario of outlineC4. -/
def esC4built : ExampleScenario :=
  { id := 1, keyword := "Scenario Outline", sentence := "O - row 0",
    path := "t.feature", line := 2,
    ex := { data := ["1"], path := "t.feature", line := 5 },
    steps := [stpC4built] }

/-- A keyword table on which the plain-scenario keyword with its
delimiter is a prefix of the scenario-outline keyword with its
delimiter, so both detectors can match one line. -/
def kwC5 : Keywords :=
  { feature := "Feature", scenario := "Sc",
    scenario_outline := "Sc:x", examples := "Examples",
    scenario_loop := "Scenario Loop", iterations := "Iterations" }

/-- A parser in SCENARIO state over the empty feature, with the
overlapping keyword table. -/
def stC5 : ParserState :=
  { initState kwC5 "t.feature" 1 with
    current_state := .scenario, feature := some featF }

/-- A feature already containing a plain scenario named A. -/
def featDup : Feature :=
  { featF with scenarios :=
      [.mk { id := 1, keyword := "Scenario", sentence := "A",
             path := "t.feature", line := 2, tags := [],
             context_variables := [] } [] [] .plain] }

/-- A parser in SCENARIO state over featDup. -/
def stDup : ParserState :=
  { initState kwEN "t.feature" 1 with
    current_state := .scenario, current_line := 3,
    feature := some featDup }

/-- The plain scenario P owned by the included feature. -/
def scP : Scenario :=
  .mk { id := 1, keyword := "Scenario", sentence := "P",
        path := "pre.feature", line := 2, tags := [],
        context_variables := [] } [] [] .plain

/-- The included feature pre.feature owning the plain scenario P. -/
def featPre : Feature :=
  { id := 2, keyword := "Feature", sentence := "Pre",
    path := "pre.feature", line := 1, tags := [], description := [],
    scenarios := [scP], context_variables := [] }

/-- A collaborator environment resolving pre.feature to featPre. -/
def envP : String → Except String Feature := fun p =>
  if p = "pre.feature" then .ok featPre else .error ("no file " ++ p)

/-- A parser in SCENARIO state over the empty feature with the standard
keyword table. -/
def stP : ParserState :=
  { initState kwEN "t.feature" 1 with
    current_state := .scenario, current_line := 2,
    feature := some featF }

/-- The example rows of the outline of linesC1. -/
def exsC1 : List Example :=
  [{ data := ["1"], path := "t.feature", line := 6 },
   { data := ["2"], path := "t.feature", line := 7 }]

/-- The outline of linesC1 as parsed just before the following
scenario header: two example rows collected, one template step. -/
def outlineC1 : Scenario :=
  .mk { id := 1, keyword := "Scenario Outline", sentence := "O",
        path := "t.feature", line := 2, tags := [],
        context_variables := [] }
    [] [Step.make 1 "Given x" "t.feature" 3 false]
    (.outline "Examples" ["a"] exsC1 [])

/-- The feature of linesC1 just before the following scenario header. -/
def featC1 : Feature :=
  { featF with scenarios := [outlineC1] }

/-- A parser in SCENARIO state (reached through EXAMPLES_ROW) over
featC1, about to read the following scenario header on line 8. -/
def stC1 : ParserState :=
  { initState kwEN "t.feature" 1 with
    current_state := .scenario, current_line := 8,
    feature := some featC1 }

/-- The plain scenario S as constructed from line 8 of linesC1. -/
def scS : Scenario :=
  .mk { id := 4, keyword := "Scenario", sentence := "S",
        path := "t.feature", line := 8, tags := [],
        context_variables := [] } [] [] .plain

/-- featC1 with the following scenario appended. -/
def featC1x : Feature :=
  { featC1 with scenarios := featC1.scenarios ++ [scS] }

/-- The parser state after consuming line 8 of linesC1. -/
def stC1x : ParserState :=
  { stC1 with current_state := .step, feature := some featC1x }

/-- A parser in EXAMPLES_ROW state over featC1 reading line 8. -/
def stC10 : ParserState :=
  { initState kwEN "t.feature" 1 with
    current_state := .examples_row, current_line := 8,
    feature := some featC1 }

/-- A scenario holding one step without table rows yet. -/
def scenC7 : Scenario :=
  .mk { id := 1, keyword := "Scenario", sentence := "A",
        path := "t.feature", line := 2, tags := [],
        context_variables := [] }
    [] [Step.make 1 "Given x" "t.feature" 3 true] .plain

/-- A feature whose last scenario is scenC7. -/
def featC7 : Feature := { featF with scenarios := [scenC7] }

/-- A parser in STEP state over featC7. -/
def stC7 : ParserState :=
  { initState kwEN "t.feature" 1 with
    current_state := .step, current_line := 4,
    feature := some featC7 }

/-- A scenario with no steps. -/
def scenC7e : Scenario :=
  .mk { id := 1, keyword := "Scenario", sentence := "A",
        path := "t.feature", line := 2, tags := [],
        context_variables := [] }
    [] [] .plain

/-- A parser in STEP state whose current scenario has no steps. -/
def stC7e : ParserState :=
  { initState kwEN "t.feature" 1 with
    current_state := .step, current_line := 3,
    feature := some { featF with scenarios := [scenC7e] } }


/-! ## Helper lemmas -/

theorem pySplit_ne_nil (sep : Char) (l : List Char) : pySplit sep l ≠ [] := by
  induction l with
  | nil => simp [pySplit]
  | cons c cs ih =>
    unfold pySplit
    by_cases h : c = sep
    · simp [h]
    · rw [if_neg h]
      cases hp : pySplit sep cs with
      | nil => simp
      | cons p ps => simp

theorem pySplit_length (sep : Char) (l : List Char) :
    (pySplit sep l).length = l.count sep + 1 := by
  induction l with
  | nil => simp [pySplit]
  | cons c cs ih =>
    unfold pySplit
    by_cases h : c = sep
    · rw [if_pos h]
      simp only [List.length_cons, ih]
      rw [List.count_cons]
      simp [h]
    · rw [if_neg h]
      cases hp : pySplit sep cs with
      | nil => exact absurd hp (pySplit_ne_nil sep cs)
      | cons p ps =>
        rw [hp] at ih
        simp only [List.length_cons] at ih ⊢
        rw [List.count_cons]
        simp [h, Ne.symm h]
        omega

theorem dropLast_of_length_le_one {α : Type} (l : List α)
    (h : l.length ≤ 1) : l.dropLast = [] := by
  cases l with
  | nil => rfl
  | cons a t =>
    cases t with
    | nil => rfl
    | cons b t2 => simp at h

theorem pySplitInterior_small (line : String)
    (h : line.toList.count '|' < 2) : pySplitInterior line = [] := by
  unfold pySplitInterior
  have hlen := pySplit_length '|' line.toList
  have hle : ((pySplit '|' line.toList).drop 1).length ≤ 1 := by
    simp only [List.length_drop]
    omega
  rw [dropLast_of_length_le_one _ hle]
  rfl

theorem build_step_shape (outline : Scenario) (es : ExampleScenario)
    (stp : Step) (h1 : es ∈ build_scenarios outline) (h2 : stp ∈ es.steps) :
    ∃ n sentence path line, stp = Step.make n sentence path line false := by
  unfold build_scenarios at h1
  rw [List.mem_map] at h1
  obtain ⟨⟨i, ex⟩, _, rfl⟩ := h1
  simp only [List.mem_map] at h2
  obtain ⟨⟨j, t⟩, _, rfl⟩ := h2
  exact ⟨_, _, _, _, rfl⟩

theorem appendScenario_dup (st : ParserState) (feat : Feature)
    (sentence keyword : String) (kind : SKind)
    (hdup : feat.containsScenario sentence = true) :
    appendScenario st feat sentence keyword kind =
      .error ("Scenario with name " ++ sentence ++
        " defined twice in feature " ++ feat.sentence) := by
  unfold appendScenario
  simp [hdup]

theorem appendScenario_ok_spec (st : ParserState) (feat : Feature)
    (sentence keyword : String) (kind : SKind) (st2 : ParserState)
    (h : appendScenario st feat sentence keyword kind = .ok st2) :
    feat.containsScenario sentence = false ∧
    ∃ sc : Scenario,
      st2.feature = some { feat with scenarios := feat.scenarios ++ [sc] } ∧
      sc.sentence = sentence ∧ sc.keyword = keyword ∧ sc.kind = kind ∧
      sc.preconditions = st.current_preconditions ∧
      sc.id = (match feat.scenarios.getLast? with
        | some prev =>
          (match prev.kind with
           | .outline _ _ exs _ => feat.scenarios.length + 1 + exs.length
           | .loop _ n => feat.scenarios.length + 1 + n
           | .plain => feat.scenarios.length + 1)
        | none => feat.scenarios.length + 1) ∧
      st2.current_tags = [] ∧ st2.current_preconditions = [] ∧
      st2.current_state = PState.step := by
  unfold appendScenario at h
  by_cases hdup : feat.containsScenario sentence = true
  · rw [if_pos hdup] at h
    exact absurd h (by simp)
  · rw [if_neg hdup] at h
    simp only [Except.ok.injEq] at h
    subst h
    exact ⟨by simpa using hdup,
      ⟨_, rfl, rfl, rfl, rfl, rfl, rfl, rfl, rfl, rfl⟩⟩

theorem parse_scenario_plain_branch (env : String → Except String Feature)
    (st : ParserState) (line : String) (feat : Feature) (sent : String)
    (hfeat : st.feature = some feat)
    (hdet : detect_scenario st.keywords line = some sent)
    (hne : sent ≠ "") :
    parse_scenario env st line =
      appendScenario st feat sent st.keywords.scenario .plain := by
  unfold parse_scenario
  rw [hfeat]
  simp only [hdet]
  have ht : truthy (some sent) = true := by simp [truthy, hne]
  rw [if_pos ht]
  rfl

theorem parse_scenario_outline_branch (env : String → Except String Feature)
    (st : ParserState) (line : String) (feat : Feature) (sent : String)
    (hfeat : st.feature = some feat)
    (h1 : truthy (detect_scenario st.keywords line) = false)
    (hdet : detect_scenario_outline st.keywords line = some sent)
    (hne : sent ≠ "") :
    parse_scenario env st line =
      appendScenario st feat sent st.keywords.scenario_outline
        (.outline st.keywords.examples [] [] []) := by
  unfold parse_scenario
  rw [hfeat]
  simp only [h1, hdet, Bool.false_eq_true, if_false]
  have ht : truthy (some sent) = true := by simp [truthy, hne]
  rw [if_pos ht]
  rfl

theorem parse_scenario_loop_branch (env : String → Except String Feature)
    (st : ParserState) (line : String) (feat : Feature) (sent : String)
    (n : Nat) (hfeat : st.feature = some feat)
    (h1 : truthy (detect_scenario st.keywords line) = false)
    (h2 : truthy (detect_scenario_outline st.keywords line) = false)
    (hloop : detect_scenario_loop st.keywords line = some (sent, n)) :
    parse_scenario env st line =
      appendScenario st feat sent st.keywords.scenario_loop
        (.loop st.keywords.iterations n) := by
  unfold parse_scenario
  rw [hfeat]
  simp only [h1, h2, hloop, Bool.false_eq_true, if_false]

theorem parse_scenario_detected (env : String → Except String Feature)
    (st : ParserState) (line : String) (feat : Feature) (sent : String)
    (hfeat : st.feature = some feat)
    (hdet : detected_family_sentence st.keywords line = some sent) :
    ∃ keyword kind, parse_scenario env st line =
      appendScenario st feat sent keyword kind := by
  unfold detected_family_sentence at hdet
  by_cases h1 : truthy (detect_scenario st.keywords line) = true
  · rw [if_pos h1] at hdet
    have hne : sent ≠ "" := by
      rw [hdet] at h1
      simpa [truthy] using h1
    exact ⟨_, _, parse_scenario_plain_branch env st line feat sent hfeat hdet hne⟩
  · rw [if_neg h1] at hdet
    have h1f : truthy (detect_scenario st.keywords line) = false := by
      simpa using h1
    by_cases h2 : truthy (detect_scenario_outline st.keywords line) = true
    · rw [if_pos h2] at hdet
      have hne : sent ≠ "" := by
        rw [hdet] at h2
        simpa [truthy] using h2
      exact ⟨_, _, parse_scenario_outline_branch env st line feat sent hfeat h1f hdet hne⟩
    · rw [if_neg h2] at hdet
      have h2f : truthy (detect_scenario_outline st.keywords line) = false := by
        simpa using h2
      cases hloop : detect_scenario_loop st.keywords line with
      | none => rw [hloop] at hdet; simp at hdet
      | some p =>
        rw [hloop] at hdet
        cases p with
        | mk s n =>
          simp at hdet
          subst hdet
          exact ⟨_, _, parse_scenario_loop_branch env st line feat s n hfeat h1f h2f hloop⟩

theorem parse_scenario_nofamily (env : String → Except String Feature)
    (st : ParserState) (line : String) (feat : Feature) (st2 : ParserState)
    (hfeat : st.feature = some feat)
    (h1 : truthy (detect_scenario st.keywords line) = false)
    (h2 : truthy (detect_scenario_outline st.keywords line) = false)
    (h3 : detect_scenario_loop st.keywords line = none)
    (hok : parse_scenario env st line = .ok st2) :
    ∃ feat2, st2.feature = some feat2 ∧
      feat2.scenarios = feat.scenarios := by
  unfold parse_scenario at hok
  rw [hfeat] at hok
  simp only [h1, h2, h3, Bool.false_eq_true, if_false] at hok
  cases htag : detect_tag line with
  | none =>
    rw [htag] at hok
    simp only [Except.ok.injEq] at hok
    rw [← hok]
    exact ⟨_, rfl, rfl⟩
  | some p =>
    rw [htag] at hok
    cases p with
    | mk tname targ =>
      simp only at hok
      by_cases hp : tname = "precondition"
      · rw [if_pos hp] at hok
        split at hok
        · exact absurd hok (by simp)
        · simp only [Except.ok.injEq] at hok
          rw [← hok]
          exact ⟨feat, rfl, rfl⟩
      · rw [if_neg hp] at hok
        by_cases hv : tname = "variable"
        · rw [if_pos hv] at hok
          cases targ with
          | none => simp at hok
          | some arg1 =>
            split at hok
            · exact absurd hok (by simp)
            · split at hok
              · exact absurd hok (by simp)
              · simp only [Except.ok.injEq] at hok
                rw [← hok]
                exact ⟨feat, rfl, rfl⟩
        · rw [if_neg hv] at hok
          simp only [Except.ok.injEq] at hok
          rw [← hok]
          exact ⟨feat, rfl, rfl⟩

theorem detected_none_falsy (kw : Keywords) (line : String)
    (hdet : detected_family_sentence kw line = none) :
    truthy (detect_scenario kw line) = false ∧
    truthy (detect_scenario_outline kw line) = false ∧
    detect_scenario_loop kw line = none := by
  unfold detected_family_sentence at hdet
  by_cases h1 : truthy (detect_scenario kw line) = true
  · rw [if_pos h1] at hdet
    rw [hdet] at h1
    simp [truthy] at h1
  · rw [if_neg h1] at hdet
    refine ⟨by simpa using h1, ?_⟩
    by_cases h2 : truthy (detect_scenario_outline kw line) = true
    · rw [if_pos h2] at hdet
      rw [hdet] at h2
      simp [truthy] at h2
    · rw [if_neg h2] at hdet
      exact ⟨by simpa using h2, by simpa using hdet⟩

theorem parse_scenario_ok_append (env : String → Except String Feature)
    (st st2 : ParserState) (line : String) (feat feat2 : Feature)
    (sc : Scenario)
    (hfeat : st.feature = some feat)
    (hok : parse_scenario env st line = .ok st2)
    (hfeat2 : st2.feature = some feat2)
    (happ : feat2.scenarios = feat.scenarios ++ [sc]) :
    sc.id = (match feat.scenarios.getLast? with
      | some prev =>
        (match prev.kind with
         | .outline _ _ exs _ => feat.scenarios.length + 1 + exs.length
         | .loop _ n => feat.scenarios.length + 1 + n
         | .plain => feat.scenarios.length + 1)
      | none => feat.scenarios.length + 1) := by
  cases hdet : detected_family_sentence st.keywords line with
  | none =>
    obtain ⟨h1, h2, h3⟩ := detected_none_falsy st.keywords line hdet
    obtain ⟨feat2x, hf2x, hsame⟩ :=
      parse_scenario_nofamily env st line feat st2 hfeat h1 h2 h3 hok
    rw [hfeat2] at hf2x
    injection hf2x with hf2x
    rw [hf2x] at happ
    rw [hsame] at happ
    have := congrArg List.length happ
    simp at this
  | some s =>
    obtain ⟨keyword, kind, hps⟩ :=
      parse_scenario_detected env st line feat s hfeat hdet
    rw [hps] at hok
    obtain ⟨-, sc2, hf2, -, -, -, -, hid, -, -, -⟩ :=
      appendScenario_ok_spec st feat s keyword kind st2 hok
    rw [hfeat2] at hf2
    injection hf2 with hf2
    rw [hf2] at happ
    simp only at happ
    have hsc : sc2 = sc := by
      have h := List.append_cancel_left happ
      injection h
    rw [← hsc]
    exact hid

theorem parse_step_table_branch (env : String → Except String Feature)
    (st : ParserState) (line : String)
    (h1 : truthy (detect_scenario st.keywords line) = false)
    (h2 : truthy (detect_scenario_outline st.keywords line) = false)
    (h3 : detect_scenario_loop st.keywords line = none)
    (h4 : detect_tag line = none)
    (h5 : detect_step_text line = false)
    (h6 : detect_table line = true) :
    parse_step env st line = parse_table st line := by
  unfold parse_step
  rw [if_neg (by simp [h1, h2, h3, h4])]
  rw [if_neg (by simp [h5])]
  rw [if_pos (by simp [h6])]

theorem parse_precondition_spec (env : String → Except String Feature)
    (st : ParserState) (arg fname fsent : String) (pfeat : Feature)
    (hsplit : findPrecondSplit arg = some (fname, fsent))
    (henv : env (posixJoin (posixDirname st.featurefile) fname)
      = .ok pfeat) :
    parse_precondition env st (some arg) =
      (match pfeat.getScenario fsent with
       | none => .error ("Cannot import precondition scenario " ++ fsent
           ++ " from feature "
           ++ posixJoin (posixDirname st.featurefile) fname
           ++ ": No such scenario")
       | some sc => .ok sc) := by
  unfold parse_precondition
  simp only [hsplit, henv]

/-! ## Claims -/

/-- Claim C1 (corrected).  The claim asserts that the scenario following
a Scenario Outline with R example rows receives identifier
outline.id + R.  On the code (parser.py lines 206-212) the identifier of
the following scenario is (number of scenario declarations so far)
+ 1 + R; when the outline identifier equals its position (the outline
was not itself preceded by an Outline or Loop), this is
outline.id + R + 1, not outline.id + R. -/
theorem C1_next_id_after_outline (env : String → Except String Feature)
    (st st2 : ParserState) (line : String) (feat feat2 : Feature)
    (outline sc : Scenario) (ek : String) (hdr : List String)
    (exs : List Example) (bs : List ExampleScenario)
    (hfeat : st.feature = some feat)
    (hlast : feat.scenarios.getLast? = some outline)
    (hkind : outline.kind = .outline ek hdr exs bs)
    (hok : parse_scenario env st line = .ok st2)
    (hfeat2 : st2.feature = some feat2)
    (happ : feat2.scenarios = feat.scenarios ++ [sc]) :
    sc.id = feat.scenarios.length + 1 + exs.length ∧
    (outline.id = feat.scenarios.length →
      sc.id = outline.id + exs.length + 1) := by
  have hid := parse_scenario_ok_append env st st2 line feat feat2 sc
    hfeat hok hfeat2 happ
  rw [hlast] at hid
  simp only [hkind] at hid
  refine ⟨hid, ?_⟩
  intro ho
  rw [hid, ho]
  omega

/-- Counterexample to claim C1 as stated: parsing linesC1 gives the
outline O identifier 1 with R = 2 example rows, and the immediately
following scenario S identifier 4, while the claim predicts
1 + 2 = 3. -/
theorem C1_claimed_id_fails :
    ((parse envE kwEN "t.feature" 1 linesC1).toOption.map
      (fun f => f.scenarios.map
        (fun s => (s.sentence, s.id, s.examples.length))))
      = some [("O", 1, 2), ("S", 4, 0)] ∧
    (1 : Nat) + 2 ≠ 4 := by decide

/-- Witness for C1_next_id_after_outline at the state reached after the
examples of linesC1. -/
theorem C1_next_id_after_outline_witness :
    stC1.feature = some featC1 ∧
    featC1.scenarios.getLast? = some outlineC1 ∧
    outlineC1.kind = SKind.outline "Examples" ["a"] exsC1 [] ∧
    parse_scenario envE stC1 "Scenario: S" = .ok stC1x ∧
    stC1x.feature = some featC1x ∧
    featC1x.scenarios = featC1.scenarios ++ [scS] ∧
    (scS.id = featC1.scenarios.length + 1 + exsC1.length ∧
      (outlineC1.id = featC1.scenarios.length →
        scS.id = outlineC1.id + exsC1.length + 1)) :=
  ⟨rfl, rfl, rfl, rfl, rfl, rfl,
    C1_next_id_after_outline envE stC1 stC1x "Scenario: S" featC1 featC1x
      outlineC1 scS "Examples" ["a"] exsC1 [] rfl rfl rfl rfl rfl rfl⟩

/-- Claim C2 (confirmed).  Expansion of a Scenario Outline with R
example rows yields exactly R materialized scenarios in declaration
order; the scenario of row i has identifier outline.id + i, sentence
outline.sentence plus a row suffix, the same step count as the
template, and each step sentence is the template sentence with the
row mapping substituted (scenariooutline.py lines 35-64). -/
theorem C2_outline_expansion (outline : Scenario) (ek : String)
    (hdr : List String) (exs : List Example) (bs : List ExampleScenario)
    (hk : outline.kind = .outline ek hdr exs bs) :
    (build_scenarios outline).length = exs.length ∧
    ∀ (i : Nat) (es : ExampleScenario),
      (build_scenarios outline)[i]? = some es →
      ∃ ex, exs[i]? = some ex ∧
        es.id = outline.id + i ∧
        es.sentence = outline.sentence ++ " - row " ++ toString i ∧
        es.steps.length = outline.steps.length ∧
        ∀ (j : Nat) (stp tmpl : Step), es.steps[j]? = some stp →
          outline.steps[j]? = some tmpl →
          stp.sentence = replace_examples_in_sentence tmpl.sentence
            (pyDict (hdr.zip ex.data)) := by
  have hexs : outline.examples = exs := by
    unfold Scenario.examples
    rw [hk]
  have hhdr : outline.examples_header = hdr := by
    unfold Scenario.examples_header
    rw [hk]
  unfold build_scenarios
  rw [hexs, hhdr]
  constructor
  · simp [List.enum_length]
  · intro i es hi
    rw [List.getElem?_map, List.getElem?_enum] at hi
    cases hx : exs[i]? with
    | none => rw [hx] at hi; simp at hi
    | some ex =>
      rw [hx] at hi
      simp only [Option.map_some] at hi
      injection hi with hi
      refine ⟨ex, rfl, ?_, ?_, ?_, ?_⟩
      · rw [← hi]
      · rw [← hi]
      · rw [← hi]; simp [List.enum_length]
      · intro j stp tmpl hj htj
        rw [← hi] at hj
        rw [List.getElem?_map, List.getElem?_enum, htj] at hj
        simp only [Option.map_some] at hj
        injection hj with hj
        rw [← hj]
        rfl

/-- Witness for C2_outline_expansion at the round-trip outline of spec
section 8. -/
theorem C2_outline_expansion_witness :
    outlineRT.kind = SKind.outline "Examples" ["a", "b"] exsRT [] ∧
    ((build_scenarios outlineRT).length = exsRT.length ∧
    ∀ (i : Nat) (es : ExampleScenario),
      (build_scenarios outlineRT)[i]? = some es →
      ∃ ex, exsRT[i]? = some ex ∧
        es.id = outlineRT.id + i ∧
        es.sentence = outlineRT.sentence ++ " - row " ++ toString i ∧
        es.steps.length = outlineRT.steps.length ∧
        ∀ (j : Nat) (stp tmpl : Step), es.steps[j]? = some stp →
          outlineRT.steps[j]? = some tmpl →
          stp.sentence = replace_examples_in_sentence tmpl.sentence
            (pyDict (["a", "b"].zip ex.data))) :=
  ⟨rfl, C2_outline_expansion outlineRT "Examples" ["a", "b"] exsRT [] rfl⟩

/-- Claim C3 (code bug).  The claim (with spec sections 3 and 4.3)
says every Step constructed for a materialized scenario is runnable;
scenariooutline.py line 47 passes False as the runnable flag, so every
materialized step of the round-trip outline reports runable = false. -/
theorem C3_materialized_steps_not_runnable :
    (build_scenarios outlineRT).map (fun es => es.steps.map Step.runable)
      = [[false, false], [false, false]] := by decide

/-- Counterexample to claim C4 as stated: the materialized step of
outlineC4 carries an empty table and empty text block, while the
template step carries table x and text t. -/
theorem C4_table_not_preserved :
    build_scenarios outlineC4 = [esC4built] ∧
    stpC4built.table = [] ∧ stpC4built.raw_text = [] ∧
    outlineC4.steps.map Step.table = [[["x"]]] ∧
    outlineC4.steps.map Step.raw_text = [["t"]] ∧
    ¬ (stpC4built.table = stepT.table ∧
       stpC4built.raw_text = stepT.raw_text) := by decide

/-- Claim C4 (corrected).  The claim asserts that each materialized
step carries the corresponding template table and text block; the code
(scenariooutline.py line 47) constructs each materialized step fresh,
so its table and text block are empty whatever the template holds. -/
theorem C4_materialized_steps_empty (outline : Scenario)
    (es : ExampleScenario) (stp : Step)
    (h1 : es ∈ build_scenarios outline) (h2 : stp ∈ es.steps) :
    stp.table = [] ∧ stp.raw_text = [] := by
  obtain ⟨n, s, p, l, rfl⟩ := build_step_shape outline es stp h1 h2
  exact ⟨rfl, rfl⟩

/-- Witness for C4_materialized_steps_empty at outlineC4. -/
theorem C4_materialized_steps_empty_witness :
    esC4built ∈ build_scenarios outlineC4 ∧
    stpC4built ∈ esC4built.steps ∧
    (stpC4built.table = [] ∧ stpC4built.raw_text = []) :=
  ⟨by decide, by decide,
    C4_materialized_steps_empty outlineC4 esC4built stpC4built
      (by decide) (by decide)⟩

/-- Counterexample to claim C5 as stated: on the keyword table kwC5 the
line matches both the plain-scenario and the scenario-outline detector,
and the parser constructs a plain Scenario, not a Scenario Outline. -/
theorem C5_outline_precedence_fails :
    truthy (detect_scenario kwC5 "Sc:x: y") = true ∧
    truthy (detect_scenario_outline kwC5 "Sc:x: y") = true ∧
    ((parse_scenario envE stC5 "Sc:x: y").toOption.bind
      (fun st => st.feature)).map
      (fun f => f.scenarios.map (fun s => (s.sentence, s.kind)))
      = some [("x: y", SKind.plain)] := by decide

/-- Claim C5 (corrected).  The detectors are tried plain-scenario
first (parser.py lines 174-182), so when both detectors match a line
with a truthy plain detection, the parser constructs a plain Scenario;
a Scenario Outline is only constructed when the plain detection is
falsy. -/
theorem C5_plain_scenario_wins (env : String → Except String Feature)
    (st : ParserState) (line : String) (feat : Feature) (sent : String)
    (hfeat : st.feature = some feat)
    (hdet : detect_scenario st.keywords line = some sent)
    (hne : sent ≠ "")
    (_hout : truthy (detect_scenario_outline st.keywords line) = true)
    (hdup : feat.containsScenario sent = false) :
    ∃ st2 sc, parse_scenario env st line = .ok st2 ∧
      st2.feature = some { feat with
        scenarios := feat.scenarios ++ [sc] } ∧
      sc.kind = .plain ∧ sc.sentence = sent ∧
      sc.keyword = st.keywords.scenario := by
  rw [parse_scenario_plain_branch env st line feat sent hfeat hdet hne]
  unfold appendScenario
  rw [if_neg (by simp [hdup])]
  exact ⟨_, _, rfl, rfl, rfl, rfl, rfl⟩

/-- Witness for C5_plain_scenario_wins on the overlapping keyword
table. -/
theorem C5_plain_scenario_wins_witness :
    stC5.feature = some featF ∧
    detect_scenario stC5.keywords "Sc:x: y" = some "x: y" ∧
    "x: y" ≠ "" ∧
    truthy (detect_scenario_outline stC5.keywords "Sc:x: y") = true ∧
    featF.containsScenario "x: y" = false ∧
    (∃ st2 sc, parse_scenario envE stC5 "Sc:x: y" = .ok st2 ∧
      st2.feature = some { featF with
        scenarios := featF.scenarios ++ [sc] } ∧
      sc.kind = .plain ∧ sc.sentence = "x: y" ∧
      sc.keyword = stC5.keywords.scenario) :=
  ⟨rfl, rfl, by decide, rfl, rfl,
    C5_plain_scenario_wins envE stC5 "Sc:x: y" featF "x: y" rfl rfl
      (by decide) rfl rfl⟩

/-- Claim C6 (confirmed).  In SCENARIO state, a scenario-family header
whose sentence already names a scenario of the Feature makes the parse
fail with the duplicate-name error (parser.py lines 203-204); since the
result is an error and no successor state exists, the scenario list is
not extended. -/
theorem C6_duplicate_scenario_error (env : String → Except String Feature)
    (st : ParserState) (line : String) (feat : Feature) (sent : String)
    (hfeat : st.feature = some feat)
    (hdet : detected_family_sentence st.keywords line = some sent)
    (hdup : feat.containsScenario sent = true) :
    parse_scenario env st line =
      .error ("Scenario with name " ++ sent ++
        " defined twice in feature " ++ feat.sentence) := by
  obtain ⟨keyword, kind, hps⟩ :=
    parse_scenario_detected env st line feat sent hfeat hdet
  rw [hps]
  exact appendScenario_dup st feat sent keyword kind hdup

/-- Witness for C6_duplicate_scenario_error over a feature already
holding scenario A. -/
theorem C6_duplicate_scenario_error_witness :
    stDup.feature = some featDup ∧
    detected_family_sentence stDup.keywords "Scenario: A" = some "A" ∧
    featDup.containsScenario "A" = true ∧
    parse_scenario envE stDup "Scenario: A" =
      .error ("Scenario with name " ++ "A" ++
        " defined twice in feature " ++ featDup.sentence) :=
  ⟨rfl, rfl, rfl,
    C6_duplicate_scenario_error envE stDup "Scenario: A" featDup "A"
      rfl rfl rfl⟩

/-- Claim C7 (confirmed).  In STEP state a table row reaching
_parse_table fails with the structural error when the current scenario
has no steps (parser.py lines 288-289), and otherwise appends the
parsed interior cells as a row to the table of the last step
(parser.py line 291). -/
theorem C7_step_table (env : String → Except String Feature)
    (st : ParserState) (line : String) (feat : Feature) (last : Scenario)
    (hfeat : st.feature = some feat)
    (hlast : feat.scenarios.getLast? = some last)
    (h1 : truthy (detect_scenario st.keywords line) = false)
    (h2 : truthy (detect_scenario_outline st.keywords line) = false)
    (h3 : detect_scenario_loop st.keywords line = none)
    (h4 : detect_tag line = none)
    (h5 : detect_step_text line = false)
    (h6 : detect_table line = true) :
    (last.steps = [] →
      parse_step env st line = .error
        ("Found step table without previous step definition on line "
          ++ toString st.current_line)) ∧
    (∀ stps stp, last.steps = stps ++ [stp] →
      parse_step env st line = .ok
        { st with
          feature := some
            { feat with
              scenarios := feat.scenarios.dropLast ++
                [last.setSteps (stps ++
                  [{ stp with
                     table := stp.table ++
                       [pySplitInterior line] }])] } }) := by
  rw [parse_step_table_branch env st line h1 h2 h3 h4 h5 h6]
  constructor
  · intro hempty
    unfold parse_table
    rw [hfeat]
    simp only [hlast, hempty]
    rfl
  · intro stps stp hsteps
    unfold parse_table
    rw [hfeat]
    simp only [hlast]
    rw [if_neg (by simp [hsteps])]
    unfold Feature.modifyLastScenario
    rw [hlast]
    simp only [Scenario.modifyLastStep, hsteps, List.getLast?_concat,
      List.dropLast_concat]

/-- Witness for C7_step_table at a scenario with no steps, exercising
the structural-error side. -/
theorem C7_step_table_witness :
    stC7e.feature = some { featF with scenarios := [scenC7e] } ∧
    ({ featF with scenarios := [scenC7e] } : Feature).scenarios.getLast?
      = some scenC7e ∧
    truthy (detect_scenario stC7e.keywords "| 1 | 2 |") = false ∧
    truthy (detect_scenario_outline stC7e.keywords "| 1 | 2 |") = false ∧
    detect_scenario_loop stC7e.keywords "| 1 | 2 |" = none ∧
    detect_tag "| 1 | 2 |" = none ∧
    detect_step_text "| 1 | 2 |" = false ∧
    detect_table "| 1 | 2 |" = true ∧
    ((scenC7e.steps = [] →
      parse_step envE stC7e "| 1 | 2 |" = .error
        ("Found step table without previous step definition on line "
          ++ toString stC7e.current_line)) ∧
    (∀ stps stp, scenC7e.steps = stps ++ [stp] →
      parse_step envE stC7e "| 1 | 2 |" = .ok
        { stC7e with
          feature := some
            { { featF with scenarios := [scenC7e] } with
              scenarios := ({ featF with
                scenarios := [scenC7e] } : Feature).scenarios.dropLast ++
                [scenC7e.setSteps (stps ++
                  [{ stp with
                     table := stp.table ++
                       [pySplitInterior "| 1 | 2 |"] }])] } })) :=
  ⟨rfl, rfl, rfl, rfl, rfl, rfl, rfl, rfl,
    C7_step_table envE stC7e "| 1 | 2 |"
      { featF with scenarios := [scenC7e] } scenC7e
      rfl rfl rfl rfl rfl rfl rfl rfl⟩

/-- Claim C8 (confirmed).  With a well-formed precondition argument and
a resolvable feature file, the resolver errors when the included
feature holds no scenario with the requested sentence
(parser.py lines 336-337) and otherwise appends the resolved scenario,
an element of the scenario list the included feature keeps, to the
precondition buffer attached to the next scenario
(parser.py lines 189-190 and 339). -/
theorem C8_precondition_resolution (env : String → Except String Feature)
    (st : ParserState) (line : String) (feat pfeat : Feature)
    (arg fname fsent : String)
    (hfeat : st.feature = some feat)
    (h1 : truthy (detect_scenario st.keywords line) = false)
    (h2 : truthy (detect_scenario_outline st.keywords line) = false)
    (h3 : detect_scenario_loop st.keywords line = none)
    (htag : detect_tag line = some ("precondition", some arg))
    (hsplit : findPrecondSplit arg = some (fname, fsent))
    (henv : env (posixJoin (posixDirname st.featurefile) fname)
      = .ok pfeat) :
    (pfeat.getScenario fsent = none →
      parse_scenario env st line = .error
        ("Cannot import precondition scenario " ++ fsent
          ++ " from feature "
          ++ posixJoin (posixDirname st.featurefile) fname
          ++ ": No such scenario")) ∧
    (∀ sc : Scenario, pfeat.getScenario fsent = some sc →
      parse_scenario env st line = .ok
        { st with
          current_tags := st.current_tags ++
            [⟨"precondition", some arg⟩],
          current_preconditions := st.current_preconditions ++ [sc] } ∧
      sc ∈ pfeat.scenarios) := by
  have hbody : parse_scenario env st line =
      (match parse_precondition env
          { st with current_tags := st.current_tags ++
            [⟨"precondition", some arg⟩] } (some arg) with
       | .error e => .error e
       | .ok sc => .ok
          { st with
            current_tags := st.current_tags ++
              [⟨"precondition", some arg⟩],
            current_preconditions :=
              st.current_preconditions ++ [sc] }) := by
    unfold parse_scenario
    rw [hfeat]
    simp only [h1, h2, h3, htag, Bool.false_eq_true, if_false, if_true]
  have hspec := parse_precondition_spec env
    { st with current_tags := st.current_tags ++
      [⟨"precondition", some arg⟩] } arg fname fsent pfeat hsplit henv
  constructor
  · intro hnone
    rw [hbody, hspec, hnone]
  · intro sc hsc
    rw [hbody, hspec, hsc]
    exact ⟨rfl, List.mem_of_find?_eq_some hsc⟩

/-- Witness for C8_precondition_resolution resolving pre.feature. -/
theorem C8_precondition_resolution_witness :
    stP.feature = some featF ∧
    truthy (detect_scenario stP.keywords
      "@precondition(pre.feature: P)") = false ∧
    truthy (detect_scenario_outline stP.keywords
      "@precondition(pre.feature: P)") = false ∧
    detect_scenario_loop stP.keywords
      "@precondition(pre.feature: P)" = none ∧
    detect_tag "@precondition(pre.feature: P)"
      = some ("precondition", some "pre.feature: P") ∧
    findPrecondSplit "pre.feature: P" = some ("pre.feature", "P") ∧
    envP (posixJoin (posixDirname stP.featurefile) "pre.feature")
      = .ok featPre ∧
    ((featPre.getScenario "P" = none →
      parse_scenario envP stP "@precondition(pre.feature: P)" = .error
        ("Cannot import precondition scenario " ++ "P"
          ++ " from feature "
          ++ posixJoin (posixDirname stP.featurefile) "pre.feature"
          ++ ": No such scenario")) ∧
    (∀ sc : Scenario, featPre.getScenario "P" = some sc →
      parse_scenario envP stP "@precondition(pre.feature: P)" = .ok
        { stP with
          current_tags := stP.current_tags ++
            [⟨"precondition", some "pre.feature: P"⟩],
          current_preconditions :=
            stP.current_preconditions ++ [sc] } ∧
      sc ∈ featPre.scenarios)) :=
  ⟨rfl, rfl, rfl, rfl, rfl, rfl, rfl,
    C8_precondition_resolution envP stP "@precondition(pre.feature: P)"
      featF featPre "pre.feature: P" "pre.feature" "P"
      rfl rfl rfl rfl rfl rfl rfl⟩

/-- Counterexample to claim C9 as stated: on the tag line with no
parenthesized argument the detector returns name paired with an absent
argument, not with the empty string. -/
theorem C9_empty_argument_fails :
    detect_tag "@foo" = some ("foo", none) ∧
    detect_tag "@foo" ≠ some ("foo", some "") := by decide

/-- Claim C9 (corrected).  For a trimmed line of an at sign followed by
a nonempty run of tag-name characters and nothing else, the detector
matches and returns the pair of the name and an absent argument
(the optional regex group is unmatched, parser.py lines 471-473). -/
theorem C9_tag_argument_absent (name : String) (h1 : name ≠ "")
    (h2 : ∀ c ∈ name.toList, tagNameChar c = true) :
    detect_tag ("@" ++ name) = some (name, none) := by
  have hdata : ("@" ++ name).toList = '@' :: name.toList := by
    show ("@" ++ name).data = '@' :: name.data
    rw [String.data_append]
    rfl
  have htake : name.toList.takeWhile tagNameChar = name.toList :=
    List.takeWhile_eq_self_iff.mpr h2
  have hdrop : name.toList.dropWhile tagNameChar = [] :=
    List.dropWhile_eq_nil_iff.mpr h2
  have hne : name.toList ≠ [] := by
    intro h
    apply h1
    cases name with
    | mk d =>
      simp only [String.toList] at h
      simp only [h]
  unfold detect_tag
  rw [hdata]
  simp only [htake, hdrop]
  rw [if_neg (by simpa [List.isEmpty_iff] using hne)]
  have hmk : String.mk name.toList = name := by cases name; rfl
  rw [hmk]

/-- Witness for C9_tag_argument_absent at the name foo. -/
theorem C9_tag_argument_absent_witness :
    "foo" ≠ "" ∧
    (∀ c ∈ "foo".toList, tagNameChar c = true) ∧
    detect_tag ("@" ++ "foo") = some ("foo", none) :=
  ⟨by decide, by decide,
    C9_tag_argument_absent "foo" (by decide) (by decide)⟩

/-- Claim C10 (confirmed).  In EXAMPLES_ROW state, a line on which none
of the scenario, scenario-outline and scenario-loop detectors fires is
consumed as a new Example row whose cells are the pipe-delimited
interior of the line (parser.py lines 249-250); the buffers, including
the tag buffer, are untouched, and a line with fewer than two pipe
characters yields an empty cell list. -/
theorem C10_examples_row_consumes (env : String → Except String Feature)
    (st : ParserState) (line : String) (feat : Feature) (last : Scenario)
    (ek : String) (hdr : List String) (exs : List Example)
    (bs : List ExampleScenario)
    (hfeat : st.feature = some feat)
    (hlast : feat.scenarios.getLast? = some last)
    (hkind : last.kind = .outline ek hdr exs bs)
    (h1 : truthy (detect_scenario st.keywords line) = false)
    (h2 : truthy (detect_scenario_outline st.keywords line) = false)
    (h3 : detect_scenario_loop st.keywords line = none) :
    parse_examples_row env st line = .ok
      { st with
        feature := some
          { feat with
            scenarios := feat.scenarios.dropLast ++
              [last.setKind (.outline ek hdr (exs ++
                [{ data := pySplitInterior line, path := st.featurefile,
                   line := st.current_line }]) bs)] } } ∧
    (line.toList.count '|' < 2 → pySplitInterior line = []) := by
  refine ⟨?_, fun h => pySplitInterior_small line h⟩
  unfold parse_examples_row
  rw [if_neg (by simp [h1, h2, h3])]
  rw [hfeat]
  simp only [hlast, hkind]
  unfold Feature.modifyLastScenario
  rw [hlast]

/-- Witness for C10_examples_row_consumes at the tag-shaped line in
EXAMPLES_ROW state; the line holds no pipe character, so the appended
Example has an empty cell list. -/
theorem C10_examples_row_consumes_witness :
    stC10.feature = some featC1 ∧
    featC1.scenarios.getLast? = some outlineC1 ∧
    outlineC1.kind = SKind.outline "Examples" ["a"] exsC1 [] ∧
    truthy (detect_scenario stC10.keywords "@name") = false ∧
    truthy (detect_scenario_outline stC10.keywords "@name") = false ∧
    detect_scenario_loop stC10.keywords "@name" = none ∧
    pySplitInterior "@name" = [] ∧
    (parse_examples_row envE stC10 "@name" = .ok
      { stC10 with
        feature := some
          { featC1 with
            scenarios := featC1.scenarios.dropLast ++
              [outlineC1.setKind (.outline "Examples" ["a"] (exsC1 ++
                [{ data := pySplitInterior "@name",
                   path := stC10.featurefile,
                   line := stC10.current_line }]) [])] } } ∧
    ("@name".toList.count '|' < 2 → pySplitInterior "@name" = [])) :=
  ⟨rfl, rfl, rfl, rfl, rfl, rfl, by decide,
    C10_examples_row_consumes envE stC10 "@name" featC1 outlineC1
      "Examples" ["a"] exsC1 [] rfl rfl rfl rfl rfl rfl⟩

end Radish
